import Mathlib

/-!
Shallow embedding of the suumo_scraper repository's core pipeline:
the property parser (`src/scraper/property_parser.py`), the paginated
crawl controller (`suumo_scraper.py`, `SuumoScraper.scrape_properties`
and `SuumoScraper.export_to_sheets`), the diff engine
(`src/sheets/sheets_manager.py`) and the notification trigger
(`notification_service.py`).

Python dictionaries holding one listing are embedded as the fixed-shape
`Record` structure (the parser always produces every key, missing data
degrading to the sentinel string "N/A"; `is_new` is absent until the
diff engine sets it, read back with `prop.get('is_new', False)`, so it
is embedded as a `Bool` field initialized to `false`).  The pandas
DataFrame holding a prior run's sheet values is embedded as `PrevData`
(column names plus rows of cells).  Console output relevant to the
claims (the error printed when a page fetch fails) is part of the
returned `CrawlResult`.
-/

/-- One listing record, as built by `PropertyParser._extract_property_info`.
Field names follow the Python dictionary keys. -/
structure Record where
  «物件名» : String
  «所在地» : String
  «アクセス» : String
  «築年数» : String
  «賃料» : String
  «管理費» : String
  «敷金» : String
  «礼金» : String
  «間取り» : String
  «専有面積» : String
  «物件URL» : String
  «メイン画像» : String
  «画像一覧» : String
  search_params : List (String × String)
  is_new : Bool
deriving DecidableEq

/-- Prior-run data as returned by `SheetsManager._get_previous_data`:
a pandas DataFrame with named columns and rows of string cells. -/
structure PrevData where
  columns : List String
  rows : List (List String)
deriving DecidableEq

/-- Column access `previous_data[c].tolist()` on the embedded DataFrame:
the cell at the column's index in every row. -/
def getColumn (d : PrevData) (c : String) : List String :=
  match d.columns.findIdx? (fun x => x = c) with
  | some i => d.rows.map (fun row => row.getD i "")
  | none => []

/-- Loop body of `_mark_new_properties` on one record
(sheets_manager.py:234-236): a record whose URL is not among the prior
URLs gets `is_new = True`; any other record is left untouched. -/
def tagRecord (previous_urls : List String) (p : Record) : Record :=
  if p.«物件URL» ∈ previous_urls then p else { p with is_new := true }

/-- `SheetsManager._mark_new_properties` (sheets_manager.py:214-242):
when the prior data has a `物件URL` column, collect the (4-based) row
indices of current records whose URL is not in the set of prior URLs,
set `is_new = True` on exactly those records, and return the tagged
records with the number of collected rows; without the column, nothing
is tagged and the count is 0. -/
def markNewProperties (previous_data : PrevData) (properties : List Record) :
    List Record × Nat :=
  if "物件URL" ∈ previous_data.columns then
    let previous_urls := getColumn previous_data "物件URL"
    let new_properties_rows :=
      ((properties.enumFrom 4).filter
        (fun ip => ip.2.«物件URL» ∉ previous_urls)).map (fun ip => ip.1)
    let tagged := properties.map (tagRecord previous_urls)
    (tagged, new_properties_rows.length)
  else
    (properties, 0)

/-- `SheetsManager._mark_all_as_new` (sheets_manager.py:244-266):
highlight rows `range(4, len(properties)+4)`; when that range is
non-empty set `is_new = True` on every record and return their number,
otherwise return 0. -/
def markAllAsNew (properties : List Record) : List Record × Nat :=
  let new_rows := List.range' 4 properties.length
  if new_rows ≠ [] then
    (properties.map (fun p => { p with is_new := true }), new_rows.length)
  else
    (properties, 0)

/-- Half-day slot of a run identity (`AM`/`PM` sheet-name suffix). -/
inductive Slot where
  | AM : Slot
  | PM : Slot
deriving DecidableEq

/-- Slot chosen by `SheetsManager._get_sheet_name` (sheets_manager.py:89-93):
`"AM" if current_hour < 12 else "PM"`. -/
def currentSlot (hour : Nat) : Slot :=
  if hour < 12 then Slot.AM else Slot.PM

/-- Prior-run identity resolution in `SheetsManager._handle_new_properties`
(sheets_manager.py:168-178).  Calendar dates are embedded as day numbers
(`Int`); the Python computes `time.time() - 24*60*60` and re-formats,
i.e. the previous calendar day.  AM runs (hour < 12) reference the
previous day's PM sheet; PM runs reference the same day's AM sheet. -/
def resolvePriorIdentity (date : Int) (hour : Nat) : Int × Slot :=
  if hour < 12 then (date - 1, Slot.PM) else (date, Slot.AM)

/-- Dispatch in `SheetsManager._handle_new_properties`
(sheets_manager.py:183-189): with found, non-empty prior data run the
URL comparison, otherwise mark everything as new. -/
def handleNewProperties (previous_data : Option PrevData)
    (properties : List Record) : List Record × Nat :=
  match previous_data with
  | some prev =>
      if prev.rows ≠ [] then markNewProperties prev properties
      else markAllAsNew properties
  | none => markAllAsNew properties

/-- `SheetsManager.export_properties` (sheets_manager.py:45-80), pure
core: with no records nothing is written and the count is 0, otherwise
the new-property handling runs.  The Registry lookup result (including
`_get_previous_data` returning `None` on any error) is the
`previous_data` argument. -/
def exportProperties (properties : List Record)
    (previous_data : Option PrevData) : List Record × Nat :=
  if properties = [] then (properties, 0)
  else handleNewProperties previous_data properties

/-- An HTML element as the parser consumes it: its text content and its
attribute list. -/
structure Element where
  text : String
  attrs : List (String × String)
deriving DecidableEq

/-- Attribute lookup: `element[k]` exists iff `k in element.attrs`. -/
def getAttr (e : Element) (k : String) : Option String :=
  (e.attrs.find? (fun a => a.1 = k)).map (fun a => a.2)

/-- One `div.cassetteitem` listing fragment, abstracted as the results
of the CSS `select_one` queries that `_extract_property_info` performs
on it (`none` when the selector matches nothing). -/
structure Fragment where
  mainImage : Option Element
  thumbnailDiv : Option Element
  titleEl : Option Element
  locationEl : Option Element
  accessEl : Option Element
  ageEl : Option Element
  rentEl : Option Element
  adminEl : Option Element
  depositEl : Option Element
  gratuityEl : Option Element
  madoriEl : Option Element
  mensekiEl : Option Element
  linkEl : Option Element
deriving DecidableEq

/-- Python `str.strip()`, embedded at the character-list level:
whitespace dropped from both ends. -/
def pyStrip (s : String) : String :=
  ⟨((s.data.dropWhile Char.isWhitespace).reverse.dropWhile
      Char.isWhitespace).reverse⟩

/-- Python `str.split(c)` for a one-character separator, embedded at
the character-list level: every separator occurrence splits, empty
segments are kept, and the result is never empty. -/
def splitCharsAux (c : Char) : List Char → List Char → List (List Char)
  | [], acc => [acc.reverse]
  | x :: xs, acc =>
      if x = c then acc.reverse :: splitCharsAux c xs []
      else splitCharsAux c xs (x :: acc)

/-- Python `s.split(c)` (single-character separator). -/
def splitOnChar (c : Char) (s : String) : List String :=
  (splitCharsAux c s.data []).map (fun l => ⟨l⟩)

/-- Python `sep.join(parts)`. -/
def pyJoin (sep : String) : List String → String
  | [] => ""
  | [s] => s
  | s :: rest => s ++ sep ++ pyJoin sep rest

/-- Python `s.startswith('/')`. -/
def startsWithSlash (s : String) : Bool :=
  match s.data with
  | [] => false
  | c :: _ => c = '/'

/-- `PropertyParser._get_text` (property_parser.py:76-88): the selected
element's stripped text, or the sentinel `"N/A"` when absent. -/
def getText (element : Option Element) : String :=
  match element with
  | some e => pyStrip e.text
  | none => "N/A"

/-- `href.split('?')[0]`: the part of a link before any query string
(the characters before the first `?`). -/
def stripQuery (href : String) : String :=
  ⟨href.data.takeWhile (fun ch => ch ≠ '?')⟩

/-- URL resolution in `PropertyParser._get_property_url`
(property_parser.py:103-109): strip the query string, then prefix a
root-relative path with the fixed origin `https://suumo.jp`. -/
def canonicalizeHref (href0 : String) : String :=
  let href := stripQuery href0
  if startsWithSlash href then "https://suumo.jp" ++ href else href

/-- `PropertyParser._get_property_url` (property_parser.py:90-110).  The
`base_url` parameter is accepted and ignored, as in the source. -/
def getPropertyUrl (item : Fragment) (base_url : String) : String :=
  match item.linkEl with
  | some link =>
      match getAttr link "href" with
      | some href => canonicalizeHref href
      | none => "N/A"
  | none => "N/A"

/-- The record literal built at property_parser.py:59-74, given the
already-computed main-image URL.  Thumbnails come from splitting the
`data-imgs` attribute, defaulting to the empty list. -/
def buildRecord (item : Fragment) (base_url : String)
    (search_params : List (String × String)) (main_image_url : String) :
    Record :=
  let thumbnail_urls :=
    match item.thumbnailDiv with
    | some d =>
        match getAttr d "data-imgs" with
        | some v => splitOnChar ',' v
        | none => []
    | none => []
  { «物件名» := getText item.titleEl
    «所在地» := getText item.locationEl
    «アクセス» := getText item.accessEl
    «築年数» := getText item.ageEl
    «賃料» := getText item.rentEl
    «管理費» := getText item.adminEl
    «敷金» := getText item.depositEl
    «礼金» := getText item.gratuityEl
    «間取り» := getText item.madoriEl
    «専有面積» := getText item.mensekiEl
    «物件URL» := getPropertyUrl item base_url
    «メイン画像» := main_image_url
    «画像一覧» :=
      if thumbnail_urls ≠ [] then pyJoin "," thumbnail_urls
      else "N/A"
    search_params := search_params
    is_new := false }

/-- `PropertyParser._extract_property_info` (property_parser.py:39-74).
The only raising access is `main_image['src']` on an image element
without a `src` attribute (a KeyError); that is the `Except.error`
case.  Every other field degrades independently to the sentinel. -/
def extractPropertyInfo (item : Fragment) (base_url : String)
    (search_params : List (String × String)) : Except String Record :=
  match item.mainImage with
  | some img =>
      match getAttr img "src" with
      | none => Except.error "KeyError: src"
      | some src => Except.ok (buildRecord item base_url search_params src)
  | none => Except.ok (buildRecord item base_url search_params "N/A")

/-- Loop of `PropertyParser.parse_properties` (property_parser.py:28-37):
each fragment is extracted inside try/except, a raising fragment is
skipped with `continue`, every successful record is appended. -/
def parseItems (items : List Fragment) (base_url : String)
    (search_params : List (String × String)) : List Record :=
  items.filterMap
    (fun item => (extractPropertyInfo item base_url search_params).toOption)

/-- One fetched page as the crawl controller observes it: the listing
fragments (`soup.select('div.cassetteitem')`), whether the selector
`.pagination-parts a:contains("次へ")` matches, and, per page number
`k`, whether `.pagination-parts li a[href*="page=k"]` matches. -/
structure Html where
  items : List Fragment
  nextLabel : Bool
  nextPageLink : Nat → Bool

/-- `PropertyParser.parse_properties` applied to a fetched page. -/
def parsePageProperties (html : Html) (base_url : String)
    (search_params : List (String × String)) : List Record :=
  parseItems html.items base_url search_params

/-- Outcome of fetching and rendering one page (driver `get`, page-load
wait, element wait): the rendered markup, or the raised exception's
message. -/
inductive FetchResult where
  | ok : Html → FetchResult
  | failure : String → FetchResult

/-- Observable outcome of one crawl: the accumulated records, the page
numbers requested in order, and the error message printed when a fetch
failed (`none` on normal termination). -/
structure CrawlResult where
  records : List Record
  requested : List Nat
  err : Option String
deriving DecidableEq

/-- `current_params['page'] = str(page)`: set a key in the embedded
string-to-string mapping. -/
def setParam (params : List (String × String)) (k v : String) :
    List (String × String) :=
  params.filter (fun p => p.1 ≠ k) ++ [(k, v)]

/-- The continue condition at suumo_scraper.py:97-103: a "次へ" link or
an anchor matching `page=<next>` in the pagination parts. -/
def hasNextAffordance (html : Html) (next : Nat) : Bool :=
  html.nextLabel || html.nextPageLink next

/-- The `while True` loop of `SuumoScraper.scrape_properties`
(suumo_scraper.py:58-115), with the page source per page number given
by `site` and an explicit fuel bound on the number of iterations
observed (the Python loop has no bound; every claim is about runs that
terminate).  On a fetch/render failure the loop prints the error and
breaks, returning the records accumulated so far; on a page with no
extracted records, or without a next-page affordance, it breaks
normally. -/
def scrapeLoop (site : Nat → FetchResult) (base_url : String)
    (params : List (String × String)) :
    Nat → Nat → List Record → CrawlResult
  | 0, _, acc => { records := acc, requested := [], err := none }
  | fuel + 1, page, acc =>
    let current_params := setParam params "page" (toString page)
    match site page with
    | FetchResult.failure e =>
        { records := acc, requested := [page], err := some e }
    | FetchResult.ok html =>
        let properties := parsePageProperties html base_url current_params
        if properties = [] then
          { records := acc, requested := [page], err := none }
        else
          let acc2 := acc ++ properties
          if hasNextAffordance html (page + 1) then
            let r := scrapeLoop site base_url params fuel (page + 1) acc2
            { records := r.records, requested := page :: r.requested
              err := r.err }
          else
            { records := acc2, requested := [page], err := none }

/-- `SuumoScraper.scrape_properties`: the crawl starts at page 1 with no
accumulated records. -/
def scrapeProperties (site : Nat → FetchResult) (base_url : String)
    (params : List (String × String)) (fuel : Nat) : CrawlResult :=
  scrapeLoop site base_url params fuel 1 []

/-- The cap on properties listed in a notification email
(`self.max_properties = 5`, notification_service.py:18). -/
def max_properties : Nat := 5

/-- The notification email content composed by
`NotificationService.send_notification` (notification_service.py:20-32):
the total new-property count and the displayed properties
(`new_properties[:self.max_properties]`).  With an empty list the
method returns without sending (`none`). -/
structure Message where
  total_count : Nat
  displayed : List Record
deriving DecidableEq

/-- `NotificationService.send_notification`, pure core. -/
def sendNotification (new_properties : List Record) : Option Message :=
  if new_properties = [] then none
  else
    some { total_count := new_properties.length
           displayed := new_properties.take max_properties }

/-- `SuumoScraper.export_to_sheets` (suumo_scraper.py:117-147), pure
core: run the export/diff; when the returned new-property count is
positive, collect the records whose `is_new` flag is set
(`prop.get('is_new', False)`) and send the notification, otherwise
send nothing. -/
def exportToSheets (properties : List Record)
    (previous_data : Option PrevData) : (List Record × Nat) × Option Message :=
  let res := exportProperties properties previous_data
  if res.2 > 0 then
    (res, sendNotification (res.1.filter (fun p => p.is_new)))
  else
    (res, none)

/-- A record with every text field at the sentinel and a given URL;
used for concrete instances in the theorems below. -/
def mkRecord (url : String) : Record :=
  { «物件名» := "N/A", «所在地» := "N/A", «アクセス» := "N/A"
    «築年数» := "N/A", «賃料» := "N/A", «管理費» := "N/A", «敷金» := "N/A"
    «礼金» := "N/A", «間取り» := "N/A", «専有面積» := "N/A"
    «物件URL» := url, «メイン画像» := "N/A", «画像一覧» := "N/A"
    search_params := [], is_new := false }

/-- Prior data whose `物件URL` column holds exactly the URLs `A` and `B`. -/
def prevAB : PrevData :=
  { columns := ["物件URL"], rows := [["A"], ["B"]] }

/-- Prior data with rows but without a `物件URL` column. -/
def prevNoUrl : PrevData :=
  { columns := ["物件名"], rows := [["x"]] }

/-- A fragment whose only populated selector is the detail link, with a
query string on its href. -/
def fragChintai : Fragment :=
  { mainImage := none, thumbnailDiv := none, titleEl := none
    locationEl := none, accessEl := none, ageEl := none, rentEl := none
    adminEl := none, depositEl := none, gratuityEl := none
    madoriEl := none, mensekiEl := none
    linkEl := some { text := "", attrs := [("href", "/chintai/123?query=1")] } }

/-- A fragment on which every selector comes back empty: every field of
the extracted record degrades to a sentinel. -/
def fragAllMissing : Fragment :=
  { mainImage := none, thumbnailDiv := none, titleEl := none
    locationEl := none, accessEl := none, ageEl := none, rentEl := none
    adminEl := none, depositEl := none, gratuityEl := none
    madoriEl := none, mensekiEl := none, linkEl := none }

/-- A fragment whose main-image element exists but has no `src`
attribute: `main_image['src']` raises and the fragment is skipped. -/
def fragBadImage : Fragment :=
  { fragAllMissing with mainImage := some { text := "", attrs := [] } }

/-- A page with no listing fragments and no pagination affordances. -/
def htmlEmpty : Html :=
  { items := [], nextLabel := false, nextPageLink := fun _ => false }

/-- A page with one listing fragment and a `次へ` pagination link. -/
def htmlOneWithNext : Html :=
  { items := [fragChintai], nextLabel := true, nextPageLink := fun _ => false }

/-- A site on which every page's fetch fails. -/
def siteAlwaysFails : Nat → FetchResult :=
  fun _ => FetchResult.failure "timeout"

/-- A site whose page 1 has one listing and a next link, and whose page
2 fails to fetch. -/
def siteFailsAtTwo : Nat → FetchResult :=
  fun page =>
    if page = 1 then FetchResult.ok htmlOneWithNext
    else FetchResult.failure "timeout"

/-- A site whose every page is empty of listings. -/
def siteAllEmpty : Nat → FetchResult :=
  fun _ => FetchResult.ok htmlEmpty

/-- The record extracted from `fragChintai` on page 1: every field at
the sentinel except the canonical URL, with the page parameter the
crawl controller added. -/
def recChintai : Record :=
  { mkRecord "https://suumo.jp/chintai/123" with
      search_params := [("page", "1")] }

/-- The number of highlight rows collected by `_mark_new_properties`
(an index-filtered enumeration) equals the number of records whose URL
is absent from the prior URLs. -/
theorem length_filter_enumFrom (urls : List String) :
    ∀ (n : Nat) (l : List Record),
      ((l.enumFrom n).filter
          (fun ip => ip.2.«物件URL» ∉ urls)).length
        = (l.filter (fun p => p.«物件URL» ∉ urls)).length := by
  intro n l
  induction l generalizing n with
  | nil => rfl
  | cons a t ih =>
      by_cases h : a.«物件URL» ∈ urls
      · simp only [List.enumFrom, List.filter_cons, h]
        simpa using ih (n + 1)
      · simp only [List.enumFrom, List.filter_cons, h]
        simpa using ih (n + 1)

/-- Closed form of `markAllAsNew`: every record tagged, count equal to
the number of records (also when the list is empty, where the source
returns 0 without touching anything). -/
theorem markAllAsNew_eq (l : List Record) :
    markAllAsNew l
      = (l.map (fun p => { p with is_new := true }), l.length) := by
  cases l with
  | nil => rfl
  | cons a t =>
      have h1 : List.range' 4 (a :: t).length = 4 :: List.range' 5 t.length :=
        rfl
      simp [markAllAsNew, h1]

/-- C2: the prior-run identity is resolved by the asymmetric slot rule —
an AM run (hour before 12) is compared against the previous day's PM
run, a PM run against the same day's AM run, and the resolved slot is
never the current slot. -/
theorem C2_prior_identity_slot_rule (date : Int) (hour : Nat) :
    (currentSlot hour = Slot.AM →
        resolvePriorIdentity date hour = (date - 1, Slot.PM))
    ∧ (currentSlot hour = Slot.PM →
        resolvePriorIdentity date hour = (date, Slot.AM))
    ∧ (resolvePriorIdentity date hour).2 ≠ currentSlot hour := by
  by_cases h : hour < 12 <;>
    simp [currentSlot, resolvePriorIdentity, h]

/-- C2 witness: the spec's concrete instance with calendar dates as day
numbers since 1970-01-01 (2024-05-10 is day 19853, 2024-05-09 is day
19852): an AM run (hour 6) on day 19853 resolves to (19852, PM), a PM
run (hour 18) resolves to (19853, AM). -/
theorem C2_prior_identity_slot_rule_witness :
    (currentSlot 6 = Slot.AM
      ∧ resolvePriorIdentity 19853 6 = (19853 - 1, Slot.PM))
    ∧ (currentSlot 18 = Slot.PM
      ∧ resolvePriorIdentity 19853 18 = (19853, Slot.AM)) :=
  ⟨⟨by decide, (C2_prior_identity_slot_rule 19853 6).1 (by decide)⟩,
   ⟨by decide, (C2_prior_identity_slot_rule 19853 18).2.1 (by decide)⟩⟩

/-- C3: when the Registry lookup for the resolved prior identity
returns no data (`None`, including the swallowed-exception path of
`_get_previous_data`, or an empty DataFrame), every current record is
tagged `is_new = true` and the returned count equals the number of
current records; the result is an ordinary value, not an error. -/
theorem C3_cold_start_marks_all (previous_data : Option PrevData)
    (properties : List Record)
    (h : previous_data = none
        ∨ ∃ prev, previous_data = some prev ∧ prev.rows = []) :
    handleNewProperties previous_data properties
      = (properties.map (fun p => { p with is_new := true }),
         properties.length) := by
  rcases h with h | ⟨prev, hpd, hrows⟩
  · subst h
    simpa [handleNewProperties] using markAllAsNew_eq properties
  · subst hpd
    simpa [handleNewProperties, hrows] using markAllAsNew_eq properties

/-- Tagging a record does not change its detail URL. -/
theorem tagRecord_url (u : List String) (p : Record) :
    (tagRecord u p).«物件URL» = p.«物件URL» := by
  by_cases h : p.«物件URL» ∈ u <;> simp [tagRecord, h]

/-- Tagging a record twice against the same prior URLs is the same as
tagging it once. -/
theorem tagRecord_idem (u : List String) (p : Record) :
    tagRecord u (tagRecord u p) = tagRecord u p := by
  by_cases h : p.«物件URL» ∈ u <;> simp [tagRecord, h]

/-- `markAllAsNew` is idempotent on its own output. -/
theorem markAllAsNew_idem (l : List Record) :
    markAllAsNew (markAllAsNew l).1 = markAllAsNew l := by
  simp only [markAllAsNew_eq, List.map_map, List.length_map]
  have h : ((fun p : Record => { p with is_new := true }) ∘
      (fun p : Record => { p with is_new := true }))
      = (fun p : Record => { p with is_new := true }) := by
    funext p; rfl
  rw [h]

/-- `markNewProperties` is idempotent on its own output. -/
theorem markNewProperties_idem (prev : PrevData) (l : List Record) :
    markNewProperties prev (markNewProperties prev l).1
      = markNewProperties prev l := by
  by_cases hcol : "物件URL" ∈ prev.columns
  · have hm : ∀ m : List Record, markNewProperties prev m
        = (m.map (tagRecord (getColumn prev "物件URL")),
            (((m.enumFrom 4).filter (fun ip =>
                ip.2.«物件URL» ∉ getColumn prev "物件URL")).map
                (fun ip => ip.1)).length) := by
      intro m
      unfold markNewProperties
      rw [if_pos hcol]
    simp only [hm, List.map_map, List.length_map]
    have htag : (tagRecord (getColumn prev "物件URL") ∘
        tagRecord (getColumn prev "物件URL"))
        = tagRecord (getColumn prev "物件URL") :=
      funext (tagRecord_idem (getColumn prev "物件URL"))
    rw [htag]
    rw [length_filter_enumFrom, length_filter_enumFrom]
    rw [List.filter_map, List.length_map]
    have hcong : ∀ x ∈ l,
        ((fun p => decide (p.«物件URL» ∉ getColumn prev "物件URL")) ∘
            tagRecord (getColumn prev "物件URL")) x
          = (fun p => decide (p.«物件URL» ∉ getColumn prev "物件URL")) x := by
      intro x _
      simp [Function.comp, tagRecord_url]
    rw [List.filter_congr hcong]
  · simp [markNewProperties, hcol]

/-- C7: diff tagging is idempotent — running the new-property handling
a second time on its own output, against the same resolved prior-run
lookup result, returns the identical tagged records and the identical
new-count. -/
theorem C7_diff_idempotent (previous_data : Option PrevData)
    (properties : List Record) :
    handleNewProperties previous_data
        (handleNewProperties previous_data properties).1
      = handleNewProperties previous_data properties := by
  match previous_data with
  | none => exact markAllAsNew_idem properties
  | some prev =>
      by_cases hr : prev.rows ≠ []
      · simp only [handleNewProperties, if_pos hr]
        exact markNewProperties_idem prev properties
      · simp only [handleNewProperties, if_neg hr]
        exact markAllAsNew_idem properties

/-- C10: with found prior data whose columns lack `物件URL`, the diff
step returns the records untouched with a count of 0 (neither the
cold-start policy nor the URL comparison applies), and downstream the
notification stays suppressed. -/
theorem C10_missing_url_column_zero (prev : PrevData)
    (properties : List Record)
    (hrows : prev.rows ≠ [])
    (hcol : "物件URL" ∉ prev.columns) :
    handleNewProperties (some prev) properties = (properties, 0)
    ∧ (exportToSheets properties (some prev)).2 = none := by
  have h1 : handleNewProperties (some prev) properties = (properties, 0) := by
    simp only [handleNewProperties, if_pos hrows]
    unfold markNewProperties
    rw [if_neg hcol]
  refine ⟨h1, ?_⟩
  by_cases hp : properties = []
  · simp [exportToSheets, exportProperties, hp]
  · simp [exportToSheets, exportProperties, hp, h1]

/-- C10 witness: one current record against prior data whose only
column is `物件名`: the record is returned untouched, the count is 0
and no notification is produced. -/
theorem C10_missing_url_column_zero_witness :
    (prevNoUrl.rows ≠ [] ∧ "物件URL" ∉ prevNoUrl.columns)
    ∧ handleNewProperties (some prevNoUrl) [mkRecord "A"]
        = ([mkRecord "A"], 0)
    ∧ (exportToSheets [mkRecord "A"] (some prevNoUrl)).2 = none :=
  ⟨⟨by decide, by decide⟩,
    (C10_missing_url_column_zero prevNoUrl [mkRecord "A"]
      (by decide) (by decide)).1,
    (C10_missing_url_column_zero prevNoUrl [mkRecord "A"]
      (by decide) (by decide)).2⟩

/-- C1: against found prior data carrying the `物件URL` column, a
current record is tagged `is_new = true` exactly when its canonical
detail URL is absent from the prior run's URL column; a record whose
URL is present is returned unchanged, so it stays not-new; the returned
count is the number of tagged records; and on the spec's concrete
instance (prior URLs A, B; current URLs A, C, D) the tags are
[false, true, true] and the count is 2. -/
theorem C1_diff_tags_by_url_absence (prev : PrevData)
    (properties : List Record)
    (hcol : "物件URL" ∈ prev.columns)
    (hfresh : ∀ p ∈ properties, p.is_new = false) :
    (List.Forall₂ (fun p q =>
        (q.is_new = true ↔ p.«物件URL» ∉ getColumn prev "物件URL")
        ∧ (p.«物件URL» ∈ getColumn prev "物件URL" → q = p))
      properties (markNewProperties prev properties).1)
    ∧ (markNewProperties prev properties).2
        = ((markNewProperties prev properties).1.filter
            (fun q => q.is_new)).length
    ∧ ((markNewProperties prevAB
          [mkRecord "A", mkRecord "C", mkRecord "D"]).1.map
            (fun q => q.is_new) = [false, true, true])
    ∧ (markNewProperties prevAB
          [mkRecord "A", mkRecord "C", mkRecord "D"]).2 = 2 := by
  have hmark : markNewProperties prev properties
      = (properties.map (tagRecord (getColumn prev "物件URL")),
          (((properties.enumFrom 4).filter (fun ip =>
              ip.2.«物件URL» ∉ getColumn prev "物件URL")).map
              (fun ip => ip.1)).length) := by
    unfold markNewProperties
    rw [if_pos hcol]
  refine ⟨?_, ?_, by decide, by decide⟩
  · rw [hmark]
    refine List.forall₂_map_right_iff.2 (List.forall₂_same.2 ?_)
    intro x hx
    by_cases hm : x.«物件URL» ∈ getColumn prev "物件URL"
    · simp only [tagRecord, if_pos hm]
      exact ⟨by simp [hfresh x hx, hm], by simp⟩
    · simp only [tagRecord, if_neg hm]
      exact ⟨by simp [hm], fun h => absurd h hm⟩
  · rw [hmark]
    simp only [List.length_map]
    rw [length_filter_enumFrom (getColumn prev "物件URL") 4 properties]
    rw [List.filter_map, List.length_map]
    have hcong : ∀ x ∈ properties,
        ((fun q => q.is_new) ∘ tagRecord (getColumn prev "物件URL")) x
          = (fun p => decide (p.«物件URL» ∉ getColumn prev "物件URL")) x := by
      intro x hx
      by_cases hm : x.«物件URL» ∈ getColumn prev "物件URL"
      · simp [Function.comp, tagRecord, hm, hfresh x hx]
      · simp [Function.comp, tagRecord, hm]
    rw [List.filter_congr hcong]

/-- C1 witness: the count returned on the spec's concrete instance
equals the number of records tagged in the output. -/
theorem C1_diff_tags_by_url_absence_witness :
    (markNewProperties prevAB [mkRecord "A", mkRecord "C", mkRecord "D"]).2
      = ((markNewProperties prevAB
            [mkRecord "A", mkRecord "C", mkRecord "D"]).1.filter
          (fun q => q.is_new)).length :=
  (C1_diff_tags_by_url_absence prevAB
    [mkRecord "A", mkRecord "C", mkRecord "D"]
    (by decide) (by decide)).2.1

/-- C3 witness: a cold start (no prior data) on a two-record run tags
both records and reports a count of 2. -/
theorem C3_cold_start_marks_all_witness :
    handleNewProperties none [mkRecord "A", mkRecord "B"]
      = ([{ mkRecord "A" with is_new := true },
          { mkRecord "B" with is_new := true }], 2) :=
  C3_cold_start_marks_all none [mkRecord "A", mkRecord "B"] (Or.inl rfl)

/-- C6: extracted detail URLs are canonical — the query string is
stripped and a root-relative path is prefixed with the fixed origin
`https://suumo.jp` — so two hrefs that agree after query-stripping
(links differing only in query parameters) canonicalize to equal URLs,
and a fragment linking to `/chintai/123?query=1` yields
`https://suumo.jp/chintai/123`. -/
theorem C6_url_canonicalization (h₁ h₂ : String)
    (hq : stripQuery h₁ = stripQuery h₂) :
    canonicalizeHref h₁ = canonicalizeHref h₂
    ∧ (∀ href, startsWithSlash (stripQuery href) = true →
        canonicalizeHref href = "https://suumo.jp" ++ stripQuery href)
    ∧ getPropertyUrl fragChintai
          "https://suumo.jp/jj/chintai/ichiran/FR301FC001/"
        = "https://suumo.jp/chintai/123" := by
  refine ⟨?_, ?_, by decide⟩
  · unfold canonicalizeHref
    rw [hq]
  · intro href h
    simp only [canonicalizeHref]
    rw [if_pos h]

/-- C6 witness: two links to the same path under different query
parameters receive the same canonical URL. -/
theorem C6_url_canonicalization_witness :
    stripQuery "/chintai/123?a=1" = stripQuery "/chintai/123?b=2"
    ∧ canonicalizeHref "/chintai/123?a=1"
        = canonicalizeHref "/chintai/123?b=2" :=
  ⟨by decide,
    (C6_url_canonicalization "/chintai/123?a=1" "/chintai/123?b=2"
      (by decide)).1⟩

/-- C8: a fragment whose optional name element is missing still yields
a complete record with the sentinel `"N/A"` in that field (`_get_text`
yields the sentinel for every missing element); a successfully
extracted fragment contributes its record and extraction continues
with the remaining fragments; and a fragment whose extraction raises
is skipped while every fragment before and after it is still
processed. -/
theorem C8_sentinel_and_skip (frag bad : Fragment) (base : String)
    (params : List (String × String)) (r : Record) (e : String)
    (hmiss : frag.titleEl = none)
    (hok : extractPropertyInfo frag base params = Except.ok r)
    (hbad : extractPropertyInfo bad base params = Except.error e) :
    r.«物件名» = "N/A"
    ∧ getText none = "N/A"
    ∧ (∀ rest : List Fragment,
        parseItems (frag :: rest) base params
          = r :: parseItems rest base params)
    ∧ (∀ pre post : List Fragment,
        parseItems (pre ++ bad :: post) base params
          = parseItems pre base params ++ parseItems post base params) := by
  refine ⟨?_, rfl, ?_, ?_⟩
  · unfold extractPropertyInfo at hok
    split at hok
    · split at hok
      · simp at hok
      · injection hok with hr
        subst hr
        simp [buildRecord, getText, hmiss]
    · injection hok with hr
      subst hr
      simp [buildRecord, getText, hmiss]
  · intro rest
    simp [parseItems, List.filterMap_cons, hok, Except.toOption]
  · intro pre post
    simp [parseItems, List.filterMap_append, List.filterMap_cons, hbad,
      Except.toOption]

/-- C8 witness: a fragment with every selector missing extracts to the
all-sentinel record, a fragment whose image element lacks `src` raises,
and parsing a page holding the bad fragment between two good ones
yields exactly the two good records. -/
theorem C8_sentinel_and_skip_witness :
    (fragAllMissing.titleEl = none
      ∧ extractPropertyInfo fragAllMissing "" []
          = Except.ok (mkRecord "N/A")
      ∧ extractPropertyInfo fragBadImage "" []
          = Except.error "KeyError: src")
    ∧ parseItems [fragAllMissing, fragBadImage, fragAllMissing] "" []
        = [mkRecord "N/A", mkRecord "N/A"] :=
  ⟨⟨rfl, rfl, rfl⟩, by
    have h := (C8_sentinel_and_skip fragAllMissing fragBadImage "" []
        (mkRecord "N/A") "KeyError: src" rfl rfl rfl).2.2.2
        [fragAllMissing] [fragAllMissing]
    exact h.trans rfl⟩

/-- One-step unfolding of the crawl loop with fuel available. -/
theorem scrapeLoop_succ (site : Nat → FetchResult) (base : String)
    (params : List (String × String)) (fuel page : Nat)
    (acc : List Record) :
    scrapeLoop site base params (fuel + 1) page acc
      = (match site page with
        | FetchResult.failure e =>
            { records := acc, requested := [page], err := some e }
        | FetchResult.ok html =>
            let properties := parsePageProperties html base
              (setParam params "page" (toString page))
            if properties = [] then
              { records := acc, requested := [page], err := none }
            else
              let acc2 := acc ++ properties
              if hasNextAffordance html (page + 1) then
                let r := scrapeLoop site base params fuel (page + 1) acc2
                { records := r.records, requested := page :: r.requested
                  err := r.err }
              else
                { records := acc2, requested := [page], err := none }) := rfl

/-- With at least one unit of fuel, the loop always requests the page
it starts at. -/
theorem mem_requested_self (site : Nat → FetchResult) (base : String)
    (params : List (String × String)) (fuel page : Nat)
    (acc : List Record) :
    page ∈ (scrapeLoop site base params (fuel + 1) page acc).requested := by
  cases h : site page with
  | failure e => simp [scrapeLoop, h]
  | ok html =>
      by_cases hp : parsePageProperties html base
          (setParam params "page" (toString page)) = []
      · simp [scrapeLoop, h, hp]
      · by_cases hn : hasNextAffordance html (page + 1) = true
        · simp [scrapeLoop, h, hp, hn]
        · simp [scrapeLoop, h, hp, hn]

/-- C4: the controller requests page `n+1` exactly when page `n` was
fetched successfully, yielded at least one record, and shows a
next-page affordance (the 次へ label or a `page=n+1` link); a page
with zero extracted records stops the crawl without error regardless
of affordances; a page without the affordance stops the crawl without
error after keeping its records. -/
theorem C4_pagination_continue_iff (site : Nat → FetchResult)
    (base : String) (params : List (String × String))
    (fuel page : Nat) (acc : List Record) :
    ((page + 1) ∈ (scrapeLoop site base params (fuel + 2) page acc).requested
      ↔ ∃ html, site page = FetchResult.ok html
          ∧ parsePageProperties html base
              (setParam params "page" (toString page)) ≠ []
          ∧ hasNextAffordance html (page + 1) = true)
    ∧ (∀ html, site page = FetchResult.ok html →
        parsePageProperties html base
            (setParam params "page" (toString page)) = [] →
        scrapeLoop site base params (fuel + 2) page acc
          = { records := acc, requested := [page], err := none })
    ∧ (∀ html, site page = FetchResult.ok html →
        parsePageProperties html base
            (setParam params "page" (toString page)) ≠ [] →
        hasNextAffordance html (page + 1) = false →
        scrapeLoop site base params (fuel + 2) page acc
          = { records := acc ++ parsePageProperties html base
                (setParam params "page" (toString page)),
              requested := [page], err := none }) := by
  cases h : site page with
  | failure e =>
      refine ⟨by simp [scrapeLoop_succ, h], ?_, ?_⟩
      · intro html hh
        exact absurd hh (by simp)
      · intro html hh
        exact absurd hh (by simp)
  | ok html =>
      by_cases hp : parsePageProperties html base
          (setParam params "page" (toString page)) = []
      · have hstep : scrapeLoop site base params (fuel + 2) page acc
            = { records := acc, requested := [page], err := none } := by
          rw [scrapeLoop_succ, h]
          simp [hp]
        refine ⟨?_, ?_, ?_⟩
        · rw [hstep]
          constructor
          · intro hmem
            rw [List.mem_singleton] at hmem
            exact absurd hmem (by omega)
          · rintro ⟨html2, hh2, hne2, -⟩
            injection hh2 with he
            subst he
            exact absurd hp hne2
        · intro html2 hh2 _
          exact hstep
        · intro html2 hh2 hne2 _
          injection hh2 with he
          subst he
          exact absurd hp hne2
      · by_cases hn : hasNextAffordance html (page + 1) = true
        · have hstep : (scrapeLoop site base params (fuel + 2) page acc).requested
              = page :: (scrapeLoop site base params (fuel + 1) (page + 1)
                  (acc ++ parsePageProperties html base
                    (setParam params "page" (toString page)))).requested := by
            rw [scrapeLoop_succ, h]
            simp [hp, hn]
          refine ⟨?_, ?_, ?_⟩
          · constructor
            · intro _
              exact ⟨html, rfl, hp, hn⟩
            · intro _
              rw [hstep]
              exact List.mem_cons_of_mem page
                (mem_requested_self site base params fuel (page + 1) _)
          · intro html2 hh2 hp2
            injection hh2 with he
            subst he
            exact absurd hp2 hp
          · intro html2 hh2 _ hn2
            injection hh2 with he
            subst he
            rw [hn] at hn2
            exact absurd hn2 (by simp)
        · have hstep : scrapeLoop site base params (fuel + 2) page acc
              = { records := acc ++ parsePageProperties html base
                    (setParam params "page" (toString page)),
                  requested := [page], err := none } := by
            rw [scrapeLoop_succ, h]
            simp [hp, hn]
          refine ⟨?_, ?_, ?_⟩
          · rw [hstep]
            constructor
            · intro hmem
              rw [List.mem_singleton] at hmem
              exact absurd hmem (by omega)
            · rintro ⟨html2, hh2, -, hn2⟩
              injection hh2 with he
              subst he
              exact absurd hn2 hn
          · intro html2 hh2 hp2
            injection hh2 with he
            subst he
            exact absurd hp2 hp
          · intro html2 hh2 _ _
            injection hh2 with he
            subst he
            exact hstep

/-- C4 witness: on a site whose page 1 renders with zero listing
fragments, the crawl stops at page 1 with no records, no further
request and no error. -/
theorem C4_pagination_continue_iff_witness :
    (siteAllEmpty 1 = FetchResult.ok htmlEmpty
      ∧ parsePageProperties htmlEmpty ""
          (setParam [] "page" (toString 1)) = [])
    ∧ scrapeLoop siteAllEmpty "" [] 2 1 []
        = { records := [], requested := [1], err := none } :=
  ⟨⟨rfl, rfl⟩,
    (C4_pagination_continue_iff siteAllEmpty "" [] 0 1 []).2.1
      htmlEmpty rfl rfl⟩

/-- C5: a fetch or render failure on a page aborts the crawl at once —
the failing page is requested once and never retried, no later page is
requested, the records accumulated on earlier pages are returned
unchanged, and the failure message is surfaced in the result (the
source prints it before breaking out of the loop); concretely, on a
site whose page 1 holds one listing with a next-page link and whose
page 2 fails, the crawl returns page 1's record, the request list
[1, 2] and the failure. -/
theorem C5_fetch_failure_aborts (site : Nat → FetchResult)
    (base : String) (params : List (String × String))
    (fuel page : Nat) (acc : List Record) (e : String)
    (h : site page = FetchResult.failure e) :
    scrapeLoop site base params (fuel + 1) page acc
      = { records := acc, requested := [page], err := some e }
    ∧ scrapeProperties siteFailsAtTwo "" [] 5
        = { records := [recChintai], requested := [1, 2],
            err := some "timeout" } := by
  constructor
  · simp [scrapeLoop, h]
  · decide

/-- C5 witness: the always-failing site aborts on page 1 with no
records and the surfaced error. -/
theorem C5_fetch_failure_aborts_witness :
    (siteAlwaysFails 1 = FetchResult.failure "timeout")
    ∧ scrapeLoop siteAlwaysFails "" [] 1 1 []
        = { records := [], requested := [1], err := some "timeout" } :=
  ⟨rfl,
    (C5_fetch_failure_aborts siteAlwaysFails "" [] 0 1 [] "timeout" rfl).1⟩

/-- Under fresh input records (`is_new = false` throughout, as the
parser produces them), the count returned by the export step equals
the number of records tagged `is_new` in its output. -/
theorem count_eq_filter_new (properties : List Record)
    (previous_data : Option PrevData)
    (hfresh : ∀ p ∈ properties, p.is_new = false) :
    ((exportProperties properties previous_data).1.filter
        (fun p => p.is_new)).length
      = (exportProperties properties previous_data).2 := by
  have hall : ((markAllAsNew properties).1.filter
      (fun p => p.is_new)).length = (markAllAsNew properties).2 := by
    rw [markAllAsNew_eq]
    have hself : (properties.map (fun p => { p with is_new := true })).filter
        (fun p => p.is_new)
        = properties.map (fun p => { p with is_new := true }) := by
      rw [List.filter_eq_self]
      intro a ha
      rcases List.mem_map.1 ha with ⟨b, -, rfl⟩
      rfl
    simp only []
    rw [hself, List.length_map]
  by_cases hp : properties = []
  · subst hp
    simp [exportProperties]
  · have hexp : exportProperties properties previous_data
        = handleNewProperties previous_data properties := by
      simp [exportProperties, hp]
    rw [hexp]
    have hnew : ∀ prev : PrevData,
        ((markNewProperties prev properties).1.filter
            (fun p => p.is_new)).length
          = (markNewProperties prev properties).2 := by
      intro prev
      by_cases hcol : "物件URL" ∈ prev.columns
      · have hm : markNewProperties prev properties
            = (properties.map (tagRecord (getColumn prev "物件URL")),
                (((properties.enumFrom 4).filter (fun ip =>
                    ip.2.«物件URL» ∉ getColumn prev "物件URL")).map
                    (fun ip => ip.1)).length) := by
          unfold markNewProperties
          rw [if_pos hcol]
        rw [hm]
        simp only [List.length_map]
        rw [length_filter_enumFrom]
        rw [List.filter_map, List.length_map]
        have hcong : ∀ x ∈ properties,
            ((fun p => p.is_new) ∘ tagRecord (getColumn prev "物件URL")) x
              = (fun p => decide
                  (p.«物件URL» ∉ getColumn prev "物件URL")) x := by
          intro x hx
          by_cases hmem : x.«物件URL» ∈ getColumn prev "物件URL"
          · simp [Function.comp, tagRecord, hmem, hfresh x hx]
          · simp [Function.comp, tagRecord, hmem]
        rw [List.filter_congr hcong]
      · unfold markNewProperties
        rw [if_neg hcol]
        have hnil : properties.filter (fun p => p.is_new) = [] := by
          rw [List.filter_eq_nil_iff]
          intro a ha
          simp [hfresh a ha]
        simp [hnil]
    match previous_data with
    | none => exact hall
    | some prev =>
        by_cases hr : prev.rows ≠ []
        · simp only [handleNewProperties, if_pos hr]
          exact hnew prev
        · simp only [handleNewProperties, if_neg hr]
          exact hall

/-- C9: on fresh input records the notification is produced exactly
when the returned new-record count is positive — a zero count never
produces a message — and any produced message displays at most
`max_properties = 5` records. -/
theorem C9_notification_iff_positive_count (properties : List Record)
    (previous_data : Option PrevData)
    (hfresh : ∀ p ∈ properties, p.is_new = false) :
    (((exportToSheets properties previous_data).2 ≠ none)
      ↔ 0 < (exportToSheets properties previous_data).1.2)
    ∧ (∀ m, (exportToSheets properties previous_data).2 = some m →
        m.displayed.length ≤ max_properties) := by
  have hcount := count_eq_filter_new properties previous_data hfresh
  by_cases hpos : 0 < (exportProperties properties previous_data).2
  · have hne : (exportProperties properties previous_data).1.filter
        (fun p => p.is_new) ≠ [] := by
      intro hnil
      rw [hnil] at hcount
      simp at hcount
      omega
    have hexp : exportToSheets properties previous_data
        = (exportProperties properties previous_data,
            sendNotification
              ((exportProperties properties previous_data).1.filter
                (fun p => p.is_new))) := by
      simp only [exportToSheets]
      rw [if_pos hpos]
    refine ⟨?_, ?_⟩
    · rw [hexp]
      constructor
      · intro _
        exact hpos
      · intro _
        show sendNotification _ ≠ none
        unfold sendNotification
        rw [if_neg hne]
        simp
    · intro m hm
      rw [hexp] at hm
      have hm2 : sendNotification
          ((exportProperties properties previous_data).1.filter
            (fun p => p.is_new)) = some m := hm
      unfold sendNotification at hm2
      rw [if_neg hne] at hm2
      injection hm2 with hm2
      rw [← hm2]
      exact List.length_take_le _ _
  · have hexp : exportToSheets properties previous_data
        = (exportProperties properties previous_data, none) := by
      simp only [exportToSheets]
      rw [if_neg hpos]
    refine ⟨?_, ?_⟩
    · rw [hexp]
      constructor
      · intro hq
        exact absurd rfl hq
      · intro hq
        exact absurd hq hpos
    · intro m hm
      rw [hexp] at hm
      exact absurd hm (by simp)

/-- C9 witness: a single fresh record on a cold start yields count 1
and hence a notification; the iff holds at that input. -/
theorem C9_notification_iff_positive_count_witness :
    (∀ p ∈ [mkRecord "A"], p.is_new = false)
    ∧ (((exportToSheets [mkRecord "A"] none).2 ≠ none)
        ↔ 0 < (exportToSheets [mkRecord "A"] none).1.2) :=
  ⟨by decide,
    (C9_notification_iff_positive_count [mkRecord "A"] none (by decide)).1⟩
